import Mathlib

/-!
Shallow embedding of the rawcopy NTFS raw-device copier (src/ntfs.py,
src/models.py, src/__init__.py).

Python integers are modelled as `Int` (they are unbounded); byte buffers as
`List Nat`; fallible operations return `Except`.  The Win32 surface
(CreateFile, DeviceIoControl, SetFilePointer, ReadFile, CloseHandle) is
modelled at the abstract interface given in the specification's section 6:
a device with contents and a cursor, a scripted driver for the
retrieval-pointer queries, and an OS handle table for close.  The ctypes
marshaling of those calls is out of the embedding's scope; the control flow,
arithmetic, checks, local-variable usage and attribute-assignment order of
the Python source are translated statement by statement.
-/

/-- A raw block device: its byte contents and the OS-side read cursor.
`ReadFile` reads at the cursor and advances it; `SetFilePointer` moves it. -/
structure Device where
  data : List Nat
  cursor : Int
deriving DecidableEq

/-- Trace entry for one issued device call, used to state that a code path
performs no device I/O. -/
inductive DevOp
  | seek (offset : Int)
  | read (count : Int)
deriving DecidableEq

/-- Model of Win32 SetFilePointer: repositions the cursor and returns the new
position.  The caller (read_clusters, ntfs.py line 199) treats a zero return
value as failure, which is how the source tests the DWORD result. -/
def setFilePointer (d : Device) (offset : Int) : Int × Device :=
  (offset, { d with cursor := offset })

/-- Model of Win32 ReadFile on an open readable device: returns the success
flag, the number of bytes read, the bytes themselves, and the device after
the call.  The OS call succeeds, reading `min count available` bytes from the
cursor and advancing the cursor by that amount; reads at or past end of
device succeed with fewer bytes (a short read). -/
def deviceRead (d : Device) (count : Int) : Bool × Int × List Nat × Device :=
  let avail : Int := max 0 ((d.data.length : Int) - d.cursor)
  let n : Int := min count avail
  let content := (d.data.drop d.cursor.toNat).take n.toNat
  (true, n, content, { d with cursor := d.cursor + n })

/-- Errors read_clusters can raise (ntfs.py lines 172-213).  All constructors
up to `bufferTooSmall` are Python `ValueError`s raised during validation,
before any device call (the spec's `InvalidRangeError`); `negativeByteCount`
is the `ValueError` raised by `bytes(expected_length)` when
`expected_length < 0`.  `seekFailed` and `readFailed` are `ctypes.WinError`;
`shortRead` is the final `ValueError` for a length mismatch. -/
inductive ReadErr
  | negativeByteCount
  | clusterCountNotPositive
  | clusterRangeOutOfBounds
  | sectorCountNotPositive
  | sectorRangeOutOfBounds
  | bufferTooSmall
  | seekFailed
  | readFailed
  | shortRead
deriving DecidableEq

/-- The validation `ValueError`s of read_clusters: every error it can raise
before touching the device.  The specification's `InvalidRangeError` names
exactly these (the source raises `ValueError` for each). -/
def ReadErr.isInvalidRange : ReadErr → Bool
  | .negativeByteCount => true
  | .clusterCountNotPositive => true
  | .clusterRangeOutOfBounds => true
  | .sectorCountNotPositive => true
  | .sectorRangeOutOfBounds => true
  | .bufferTooSmall => true
  | .seekFailed => false
  | .readFailed => false
  | .shortRead => false

/-- State of an opened NTFSDisk object (ntfs.py lines 17-47): the geometry
fields, the tracked cursor `current_position`, and the underlying device. -/
structure NTFS where
  size_bytes : Int
  cluster_size : Int
  sector_size : Int
  sectors_per_cluster : Int
  cluster_count : Int
  sector_count : Int
  current_position : Int
  device : Device
deriving DecidableEq

/-- Tail of read_clusters from the ReadFile call on (ntfs.py lines 205-215):
issue the read, fail if the OS call failed, fill the preallocated buffer in
place, fail with the short-read ValueError if the byte count differs from
`expected_length`, otherwise return the buffer.  Note the source does not
advance `current_position` here. -/
def issueRead (s : NTFS) (ops0 : List DevOp) (data : List Nat) (expected_length : Int) :
    Except ReadErr (List Nat) × NTFS × List DevOp :=
  let r := deviceRead s.device expected_length
  let ok := r.1
  let bytes_read := r.2.1
  let content := r.2.2.1
  let s1 : NTFS := { s with device := r.2.2.2 }
  let ops := ops0 ++ [DevOp.read expected_length]
  if ok = false then (.error .readFailed, s1, ops)
  else
    let filled := content ++ data.drop content.length
    if bytes_read ≠ expected_length then (.error .shortRead, s1, ops)
    else (.ok filled, s1, ops)

/-- NTFSDisk.read_clusters (ntfs.py lines 157-215), translated statement by
statement.  Returns the result, the object state after the call, and the
trace of device calls issued.  `bytes(expected_length)` raises `ValueError`
for a negative argument before any explicit check runs; the five explicit
checks follow in source order; then the seek-if-needed step (updating
`current_position` when a seek is issued) and the read. -/
def read_clusters (s : NTFS) (cluster clusters : Int) :
    Except ReadErr (List Nat) × NTFS × List DevOp :=
  let expected_length := s.cluster_size * clusters
  if expected_length < 0 then (.error .negativeByteCount, s, [])
  else
    let data : List Nat := List.replicate expected_length.toNat 0
    let sector := cluster * s.sectors_per_cluster
    let sectors := clusters * s.sectors_per_cluster
    if clusters ≤ 0 then (.error .clusterCountNotPositive, s, [])
    else if cluster < 0 ∨ s.cluster_count < cluster + clusters then
      (.error .clusterRangeOutOfBounds, s, [])
    else if sectors ≤ 0 then (.error .sectorCountNotPositive, s, [])
    else if sector < 0 ∨ s.sector_count < sector + sectors then
      (.error .sectorRangeOutOfBounds, s, [])
    else if (data.length : Int) < sectors * s.sector_size then
      (.error .bufferTooSmall, s, [])
    else
      let offset_bytes := sector * s.sector_size
      if s.current_position ≠ offset_bytes then
        let r := setFilePointer s.device offset_bytes
        if r.1 = 0 then (.error .seekFailed, { s with device := r.2 }, [DevOp.seek offset_bytes])
        else
          issueRead { s with device := r.2, current_position := offset_bytes }
            [DevOp.seek offset_bytes] data expected_length
      else issueRead s [] data expected_length

/-- Byte offset of a logical cluster (ntfs.py lines 174, 194):
`offset_bytes = cluster * sectors_per_cluster * sector_size`. -/
def offsetBytes (s : NTFS) (cluster : Int) : Int :=
  cluster * s.sectors_per_cluster * s.sector_size

/-- The device-cursor position at which read_clusters will actually read a
given cluster: the target offset if a seek will be issued, otherwise the
device cursor as it stands (the source skips the seek when the tracked
position already equals the target offset). -/
def readCursor (s : NTFS) (cluster : Int) : Int :=
  if s.current_position = offsetBytes s cluster then s.device.cursor
  else offsetBytes s cluster

/-- Number of bytes the device can still deliver from a given cursor. -/
def availAt (d : Device) (cursor : Int) : Int :=
  max 0 ((d.data.length : Int) - cursor)

/-- The volume-geometry invariant of the specification's section 3: the four
base fields are positive, the cluster size is sectors-per-cluster times
sector size, and the derived counts are the floor divisions of the volume
size (Python `//` on non-negative operands, Lean `Int` division). -/
def geometryInvariant (s : NTFS) : Prop :=
  0 < s.sector_size ∧ 0 < s.sectors_per_cluster ∧ 0 < s.cluster_size ∧
  0 < s.size_bytes ∧
  s.cluster_size = s.sectors_per_cluster * s.sector_size ∧
  s.cluster_count = s.size_bytes / s.cluster_size ∧
  s.sector_count = s.size_bytes / s.sector_size

instance (s : NTFS) : Decidable (geometryInvariant s) := by
  unfold geometryInvariant; infer_instance

/-- One record of the RETRIEVAL_POINTERS_BUFFER extent array (models.py
RetrievalPointerExtent): the exclusive next virtual cluster and the logical
cluster where the run starts. -/
structure RPRec where
  nextVcn : Int
  lcn : Int
deriving DecidableEq

/-- Decoded RETRIEVAL_POINTERS_BUFFER (models.py RetrievalPointersBuffer):
header starting virtual cluster and the extent records; the header's
ExtentCount is the length of `records`. -/
structure RPBuf where
  startingVcn : Int
  records : List RPRec
deriving DecidableEq

/-- FileExtent (models.py): fields vcn, lcn, size as the source constructs
them. -/
structure FileExtent where
  vcn : Int
  lcn : Int
  size : Int
deriving DecidableEq

/-- Body of the decoding loop of get_retrieval_pointers (ntfs.py lines
266-276) for index `i`: the record at `i`, the starting virtual cluster
(header value when `i == 0`, else the previous record's NextVcn), and the
FileExtent built from them. -/
def decodeExtent (startingVcn : Int) (records : List RPRec) (i : Nat) : FileExtent :=
  let extent := records.getD i { nextVcn := 0, lcn := 0 }
  let start_vcn :=
    if i = 0 then startingVcn else (records.getD (i - 1) { nextVcn := 0, lcn := 0 }).nextVcn
  { vcn := extent.nextVcn, lcn := extent.lcn, size := extent.nextVcn - start_vcn }

/-- The decoding loop of get_retrieval_pointers (ntfs.py lines 262-278):
`for i in range(pointers.ExtentCount)` building the extent list in order. -/
def decodeExtents (buf : RPBuf) : List FileExtent :=
  (List.range buf.records.length).map (decodeExtent buf.startingVcn buf.records)

/-- One scripted driver response to the FSCTL_GET_RETRIEVAL_POINTERS
DeviceIoControl call: success with a decoded output buffer, or failure with
a last-error code and the bytes-returned count the driver reported. -/
inductive DriverResp
  | success (payload : RPBuf)
  | failure (errorCode : Int) (bytesReturned : Int)

/-- Errors of the get_retrieval_pointers query loop.  `unboundLocal` is the
Python UnboundLocalError raised at ntfs.py line 257, where the ERROR_MORE_DATA
branch reads the local variable `output_buffer_size` before any assignment to
it; `winError` is the `ctypes.WinError` raised for any other failure code;
`outOfFuel` is the artefact of modelling the source's `while True` with fuel
and is never returned for positive fuel. -/
inductive GrpErr
  | unboundLocal
  | winError (code : Int)
  | outOfFuel
deriving DecidableEq

/-- The `while True` query loop of get_retrieval_pointers (ntfs.py lines
234-260).  `attempt` counts DeviceIoControl calls; `chunk_size` is the
allocation size used for every output buffer (the source never reassigns it);
`obs?` is the local variable `output_buffer_size`, `none` while unassigned.
On ERROR_MORE_DATA (code 234) the source executes
`output_buffer_size = max(output_buffer_size * 2, bytes_returned.value)`,
which raises UnboundLocalError when the variable is still unassigned —
and it is assigned nowhere else. -/
def grpLoop (driver : Nat → DriverResp) :
    Nat → Nat → Int → Option Int → Except GrpErr RPBuf
  | 0, _, _, _ => .error .outOfFuel
  | fuel + 1, attempt, chunk_size, obs? =>
    match driver attempt with
    | .success payload => .ok payload
    | .failure code bytesReturned =>
      if code = 234 then
        match obs? with
        | none => .error .unboundLocal
        | some v => grpLoop driver fuel (attempt + 1) chunk_size (some (max (v * 2) bytesReturned))
      else .error (.winError code)

/-- NTFSDisk.get_retrieval_pointers (ntfs.py lines 217-278): run the query
loop starting with `chunk_size = 1024` and the local `output_buffer_size`
unassigned, then decode the successful response into FileExtents. -/
def get_retrieval_pointers (driver : Nat → DriverResp) (fuel : Nat) :
    Except GrpErr (List FileExtent) :=
  match grpLoop driver fuel 0 1024 none with
  | .error e => .error e
  | .ok buf => .ok (decodeExtents buf)

/-- OS-side handle table, for the close model: the set of currently open
handle values. -/
structure OSHandles where
  openHandles : List Int
deriving DecidableEq

/-- Model of Win32 CloseHandle: closing `none` (NULL) or a handle that is not
open fails and changes nothing; closing an open handle removes it. -/
def closeHandle (os : OSHandles) (h : Option Int) : Bool × OSHandles :=
  match h with
  | none => (false, os)
  | some v =>
    if v ∈ os.openHandles then (true, { openHandles := os.openHandles.erase v })
    else (false, os)

/-- The `self.handle` attribute as seen by `__exit__`: `none` models Python
`None`. -/
structure ExitState where
  handle : Option Int
deriving DecidableEq

/-- Error raised by `__exit__`: `ctypes.WinError` when CloseHandle reports
failure. -/
inductive ExitErr
  | winError
deriving DecidableEq

/-- Python truthiness of `self.handle` (`if self.handle:`): `None` and `0`
are falsy, any other handle value is truthy. -/
def handleTruthy : Option Int → Bool
  | none => false
  | some v => v ≠ 0

/-- NTFSDisk.__exit__ (ntfs.py lines 55-65), translated statement by
statement: if `self.handle` is truthy, first assign `self.handle = None`
(the source's comment says this avoids double closing), then call
`CloseHandle(self.handle)` — which at that point passes the freshly assigned
`None` — and raise WinError if it fails.  Returns the call's outcome, the
object state after, and the OS handle table after. -/
def ntfsExit (s : ExitState) (os : OSHandles) :
    Except ExitErr Unit × ExitState × OSHandles :=
  if handleTruthy s.handle then
    let s1 : ExitState := { handle := none }
    let r := closeHandle os s1.handle
    if r.1 = false then (.error .winError, s1, r.2)
    else (.ok (), s1, r.2)
  else (.ok (), s, os)

/-- Scripted outcomes of the device calls NTFSDisk.__init__ makes, one field
per call site: the CreateFile result, the geometry query (success flag and
BytesPerSector), the length query (success flag and Length), and the
GetDiskFreeSpace query (success flag, SectorsPerCluster, BytesPerSector). -/
structure InitQueries where
  createHandle : Int
  geometryOk : Bool
  bytesPerSector : Int
  lengthOk : Bool
  length : Int
  freeOk : Bool
  spcValue : Int
  bpsValue : Int

/-- Errors NTFSDisk.__init__ can raise: the Python AttributeError from
reading an instance attribute that was only annotated, never assigned, and
the `ctypes.WinError` from a failed device call. -/
inductive InitErr
  | attributeError
  | winError
deriving DecidableEq

/-- Instance-attribute store of an NTFSDisk object under construction.
Python annotations such as `self.size_bytes: int` (ntfs.py lines 22-28)
evaluate to nothing and create no attribute, so every field starts `none`
and becomes `some v` only at an actual assignment. -/
structure Attrs where
  size_bytes : Option Int := none
  cluster_size : Option Int := none
  sector_size : Option Int := none
  sectors_per_cluster : Option Int := none
  cluster_count : Option Int := none
  sector_count : Option Int := none
  current_position : Option Int := none
  handle : Option Int := none
deriving DecidableEq

/-- Reading an instance attribute: AttributeError when it was never
assigned. -/
def getAttr (v : Option Int) : Except InitErr Int :=
  match v with
  | none => .error .attributeError
  | some x => .ok x

/-- NTFSDisk.__init__ (ntfs.py lines 17-47) together with the four helpers it
calls, in source order: lines 22-28 are bare annotations (no assignment);
line 31 computes `self.cluster_count = self.size_bytes // self.cluster_size`,
reading attributes that have not been assigned yet; line 32 likewise for
`sector_count`; line 35 sets `current_position = 0`; then
_initialise_disk (CreateFile), _get_disk_geometry, _get_disk_length and
_get_cluster_count populate `handle`, `sector_size`, `size_bytes`,
`cluster_size` and `sectors_per_cluster`. -/
def ntfsInit (q : InitQueries) : Except InitErr Attrs := do
  let a : Attrs := {}
  let sb ← getAttr a.size_bytes
  let cs ← getAttr a.cluster_size
  let a : Attrs := { a with cluster_count := some (sb / cs) }
  let sb2 ← getAttr a.size_bytes
  let ss ← getAttr a.sector_size
  let a : Attrs := { a with sector_count := some (sb2 / ss) }
  let a : Attrs := { a with current_position := some 0 }
  if q.createHandle = -1 then throw .winError
  let a : Attrs := { a with handle := some q.createHandle }
  if q.geometryOk = false then throw .winError
  let a : Attrs := { a with sector_size := some q.bytesPerSector }
  if q.lengthOk = false then throw .winError
  let a : Attrs := { a with size_bytes := some q.length }
  if q.freeOk = false then throw .winError
  let a : Attrs :=
    { a with cluster_size := some (q.bpsValue * q.spcValue),
             sectors_per_cluster := some q.spcValue }
  pure a

/-- Test volume: one-byte sectors, one sector per cluster, four clusters,
device contents [10, 20, 30, 40], tracked cursor and device cursor at 0
(the state right after a successful open would have them at 0). -/
def disk4 : NTFS :=
  { size_bytes := 4, cluster_size := 1, sector_size := 1, sectors_per_cluster := 1,
    cluster_count := 4, sector_count := 4, current_position := 0,
    device := { data := [10, 20, 30, 40], cursor := 0 } }

/-- Test volume whose device delivers fewer bytes than the reported geometry
promises: the geometry says four one-byte clusters but the device holds only
two bytes, so a four-cluster read comes back short. -/
def truncatedDisk : NTFS :=
  { size_bytes := 4, cluster_size := 1, sector_size := 1, sectors_per_cluster := 1,
    cluster_count := 4, sector_count := 4, current_position := 0,
    device := { data := [7, 8], cursor := 0 } }

/-- Test volume with realistic geometry: 512-byte sectors, 8 sectors per
cluster, 40960-byte volume, hence 10 clusters and 80 sectors. -/
def disk512 : NTFS :=
  { size_bytes := 40960, cluster_size := 4096, sector_size := 512,
    sectors_per_cluster := 8, cluster_count := 10, sector_count := 80,
    current_position := 0, device := { data := [], cursor := 0 } }

/-- The retrieval-pointer records for a file occupying logical clusters
100-149 then 500-519: virtual clusters 0-49 map to the run at 100, virtual
clusters 50-69 to the run at 500. -/
def twoRunRecords : List RPRec :=
  [{ nextVcn := 50, lcn := 100 }, { nextVcn := 70, lcn := 500 }]

/-- Driver that answers the first retrieval-pointers query successfully with
the two-run file's buffer. -/
def immediateDriver : Nat → DriverResp :=
  fun _ => DriverResp.success { startingVcn := 0, records := twoRunRecords }

/-- Driver that reports ERROR_MORE_DATA (234) on the first attempt, saying
4096 bytes are needed, and succeeds on the second attempt: the scenario of
the specification's two-attempt retry test. -/
def twoAttemptDriver : Nat → DriverResp :=
  fun attempt =>
    if attempt = 0 then DriverResp.failure 234 4096
    else DriverResp.success { startingVcn := 0, records := twoRunRecords }

/-- Driver that reports ERROR_MORE_DATA on every attempt, the scenario of the
specification's bounded-growth test. -/
def alwaysMoreDataDriver : Nat → DriverResp :=
  fun _ => DriverResp.failure 234 4096

/-- Device-call script on which every call NTFSDisk.__init__ makes succeeds:
CreateFile returns handle 5, the geometry query reports 512-byte sectors,
the length query reports 40960 bytes, and GetDiskFreeSpace reports 8 sectors
per cluster of 512 bytes. -/
def allGoodQueries : InitQueries :=
  { createHandle := 5, geometryOk := true, bytesPerSector := 512,
    lengthOk := true, length := 40960, freeOk := true,
    spcValue := 8, bpsValue := 512 }

/-- Under the geometry invariant, a request that passes the cluster-level
bounds checks also passes the sector-level restatement of them.  The key
step is `clusterCount * sectorsPerCluster ≤ sectorCount`, which holds
because `size / (spc * ss) * spc * ss ≤ size`. -/
lemma sectorChecksOfClusterChecks (s : NTFS) (hg : geometryInvariant s)
    (cluster clusters : Int) (h1 : 0 < clusters) (h2 : 0 ≤ cluster)
    (h3 : cluster + clusters ≤ s.cluster_count) :
    0 < clusters * s.sectors_per_cluster ∧ 0 ≤ cluster * s.sectors_per_cluster ∧
    cluster * s.sectors_per_cluster + clusters * s.sectors_per_cluster ≤ s.sector_count := by
  obtain ⟨hss, hspc, hcs, hsb, hcseq, hcc, hsc⟩ := hg
  refine ⟨mul_pos h1 hspc, mul_nonneg h2 (le_of_lt hspc), ?_⟩
  have key : s.cluster_count * s.sectors_per_cluster ≤ s.sector_count := by
    rw [hcc, hsc, hcseq, Int.le_ediv_iff_mul_le hss, mul_assoc]
    exact Int.ediv_mul_le s.size_bytes (by positivity)
  calc cluster * s.sectors_per_cluster + clusters * s.sectors_per_cluster
      = (cluster + clusters) * s.sectors_per_cluster := by ring
    _ ≤ s.cluster_count * s.sectors_per_cluster :=
        mul_le_mul_of_nonneg_right h3 (le_of_lt hspc)
    _ ≤ s.sector_count := key

/-- issueRead can only produce a read failure, a short read, or a success:
never one of the validation errors. -/
lemma issueRead_not_validation (s : NTFS) (ops0 : List DevOp) (data : List Nat)
    (e : Int) :
    (issueRead s ops0 data e).1 ≠ .error .sectorCountNotPositive ∧
    (issueRead s ops0 data e).1 ≠ .error .sectorRangeOutOfBounds := by
  simp only [issueRead]
  split_ifs <;> simp

/-- Claim C10: the sector-level restatement of the bounds check is logically
redundant.  Part one: under the geometry invariant, every request passing the
cluster-level checks (count positive, start non-negative, range within the
cluster count) also passes the sector-level checks against the sector count.
Part two: on a volume satisfying the invariant, read_clusters never returns
either sector-level error, for any request whatsoever — the sector-range
error branch is unreachable. -/
theorem sector_check_redundant (s : NTFS) (hg : geometryInvariant s) :
    (∀ cluster clusters : Int, 0 < clusters → 0 ≤ cluster →
      cluster + clusters ≤ s.cluster_count →
      0 < clusters * s.sectors_per_cluster ∧ 0 ≤ cluster * s.sectors_per_cluster ∧
      cluster * s.sectors_per_cluster + clusters * s.sectors_per_cluster ≤ s.sector_count)
    ∧ ∀ cluster clusters : Int,
        (read_clusters s cluster clusters).1 ≠ .error .sectorCountNotPositive ∧
        (read_clusters s cluster clusters).1 ≠ .error .sectorRangeOutOfBounds := by
  constructor
  · exact fun cluster clusters => sectorChecksOfClusterChecks s hg cluster clusters
  · intro cluster clusters
    obtain ⟨hss, hspc, hcs, hsb, hcseq, hcc, hsc⟩ := hg
    simp only [read_clusters]
    split_ifs with hneg hcl hrange hsec hsrange hbuf hpos hz
    · simp
    · simp
    · simp
    · exact absurd hsec (not_le.mpr (mul_pos (lt_of_not_le hcl) hspc))
    · push_neg at hrange
      obtain ⟨hc0, hcc0⟩ := hrange
      have := sectorChecksOfClusterChecks s
        ⟨hss, hspc, hcs, hsb, hcseq, hcc, hsc⟩ cluster clusters
        (lt_of_not_le hcl) hc0 hcc0
      rcases hsrange with hx | hx
      · exact absurd hx (not_lt.mpr this.2.1)
      · exact absurd hx (not_lt.mpr this.2.2)
    · simp
    · simp
    · exact issueRead_not_validation _ _ _ _
    · exact issueRead_not_validation _ _ _ _

/-- Witness for C10: on the 512-byte-sector test volume, the request
(cluster 2, 3 clusters) passes the cluster checks and hence the sector
checks. -/
theorem sector_check_redundant_spot :
    0 < 3 * disk512.sectors_per_cluster ∧ 0 ≤ 2 * disk512.sectors_per_cluster ∧
    2 * disk512.sectors_per_cluster + 3 * disk512.sectors_per_cluster ≤
      disk512.sector_count :=
  (sector_check_redundant disk512 (by decide)).1 2 3 (by decide) (by decide) (by decide)

/-- Claim C7: a request with a non-positive cluster count, a negative start,
or a range beyond the volume's cluster count fails with one of the
validation ValueErrors (the spec's InvalidRangeError), issues no device
call, and leaves the object state — in particular the tracked cursor —
unchanged. -/
theorem read_clusters_invalid_no_io (s : NTFS) (cluster clusters : Int)
    (h : clusters ≤ 0 ∨ cluster < 0 ∨ s.cluster_count < cluster + clusters) :
    ∃ e, read_clusters s cluster clusters = (.error e, s, []) ∧
      e.isInvalidRange = true := by
  simp only [read_clusters]
  split_ifs <;>
    first
      | exact ⟨.negativeByteCount, rfl, rfl⟩
      | exact ⟨.clusterCountNotPositive, rfl, rfl⟩
      | exact ⟨.clusterRangeOutOfBounds, rfl, rfl⟩
      | tauto

/-- Witness for C7: a zero-cluster request on the test volume fails with a
validation error, no I/O, state unchanged. -/
theorem read_clusters_invalid_no_io_spot :
    ∃ e, read_clusters disk4 0 0 = (.error e, disk4, []) ∧
      e.isInvalidRange = true :=
  read_clusters_invalid_no_io disk4 0 0 (Or.inl (by decide))

/-- Claim C2 counter-evidence: with a driver that reports ERROR_MORE_DATA on
the first attempt (saying 4096 bytes are needed) and would succeed on a
second attempt, get_retrieval_pointers raises UnboundLocalError instead of
growing the buffer and retrying, because the ERROR_MORE_DATA branch reads
the never-assigned local `output_buffer_size`.  The second and third
conjuncts pin down the scripted driver behaviour. -/
theorem get_retrieval_pointers_more_data_crashes :
    get_retrieval_pointers twoAttemptDriver 100 = .error .unboundLocal ∧
    twoAttemptDriver 0 = .failure 234 4096 ∧
    twoAttemptDriver 1 = .success { startingVcn := 0, records := twoRunRecords } :=
  ⟨rfl, rfl, rfl⟩

/-- Claim C3 counter-evidence: with a driver that reports ERROR_MORE_DATA on
every attempt, get_retrieval_pointers neither loops nor raises any
exhaustion fallback: it raises UnboundLocalError on the very first
ERROR_MORE_DATA (no ExtentQueryExhaustedError exists anywhere in the
source, and the `while True` loop has no retry or growth bound). -/
theorem get_retrieval_pointers_never_exhausted :
    get_retrieval_pointers alwaysMoreDataDriver 100 = .error .unboundLocal ∧
    ∀ attempt, alwaysMoreDataDriver attempt = .failure 234 4096 :=
  ⟨rfl, fun _ => rfl⟩

/-- Claim C4 counter-evidence: a successful one-cluster read at cluster 0 on
the test volume returns the cluster's bytes, but leaves `current_position`
at the start offset 0 instead of advancing it to
`offsetBytes + cluster_size * 1 = 1`: the source updates the tracked cursor
only when it issues a seek, never after the read. -/
theorem read_clusters_cursor_not_advanced :
    (read_clusters disk4 0 1).1 = .ok [10] ∧
    (read_clusters disk4 0 1).2.1.current_position = 0 ∧
    offsetBytes disk4 0 + disk4.cluster_size * 1 = 1 :=
  ⟨rfl, rfl, rfl⟩

/-- Claim C5 counter-evidence: calling read_clusters twice with identical
in-bounds arguments is not idempotent.  The first call returns cluster 0's
byte [10] and advances the device cursor; the second call indeed issues no
seek (its trace is a bare read), but — because the tracked cursor was never
advanced and therefore still matches the target offset while the device
cursor does not — it reads from the advanced device cursor and returns the
next cluster's byte [20]. -/
theorem read_clusters_repeat_not_idempotent :
    (read_clusters disk4 0 1).1 = .ok [10] ∧
    (read_clusters (read_clusters disk4 0 1).2.1 0 1).1 = .ok [20] ∧
    (read_clusters (read_clusters disk4 0 1).2.1 0 1).2.2 = [DevOp.read 1] :=
  ⟨rfl, rfl, rfl⟩

/-- Claim C8 counter-evidence: exiting the context manager with the open
handle 5 assigns `self.handle = None` first and then calls
`CloseHandle(self.handle)` — i.e. CloseHandle(None) — which fails, so
__exit__ raises WinError and handle 5 is never released from the OS handle
table.  The second conjunct shows the only part of the claim the source
does satisfy: a second exit, with the attribute already None, is a no-op. -/
theorem ntfsExit_never_releases :
    ntfsExit { handle := some 5 } { openHandles := [5] } =
      (.error .winError, { handle := none }, { openHandles := [5] }) ∧
    ntfsExit { handle := none } { openHandles := [5] } =
      (.ok (), { handle := none }, { openHandles := [5] }) :=
  ⟨rfl, rfl⟩

/-- Claim C9 counter-evidence: NTFSDisk construction always raises
AttributeError, for every script of device-call outcomes, because line 31
computes `self.size_bytes // self.cluster_size` before either attribute has
ever been assigned (lines 22-28 are bare annotations).  In particular it
fails even when every device call would succeed, so no successfully
constructed state exists for the geometry invariant to hold on. -/
theorem ntfsInit_always_attribute_error :
    (∀ q : InitQueries, ntfsInit q = .error .attributeError) ∧
    ntfsInit allGoodQueries = .error .attributeError :=
  ⟨fun _ => rfl, rfl⟩

/-- Claim C6: the decoding loop of get_retrieval_pointers.  Part one, the
general rule: record `i` decodes to an extent whose vcn and lcn are the
record's NextVcn and Lcn, and whose size is NextVcn minus the run start —
the header's starting virtual cluster when `i = 0`, the previous record's
NextVcn otherwise.  Part two, the concrete case: for a file occupying
logical clusters 100-149 then 500-519, a driver that answers the first
query successfully yields exactly the two extents (50, 100, 50) and
(70, 500, 20), in that order. -/
theorem get_retrieval_pointers_decodes_runs :
    (∀ (sv : Int) (records : List RPRec) (i : Nat), i < records.length →
      (decodeExtents { startingVcn := sv, records := records })[i]? =
        some { vcn := (records.getD i { nextVcn := 0, lcn := 0 }).nextVcn,
               lcn := (records.getD i { nextVcn := 0, lcn := 0 }).lcn,
               size := (records.getD i { nextVcn := 0, lcn := 0 }).nextVcn -
                 (if i = 0 then sv
                  else (records.getD (i - 1) { nextVcn := 0, lcn := 0 }).nextVcn) })
    ∧ get_retrieval_pointers immediateDriver 100 =
        .ok [{ vcn := 50, lcn := 100, size := 50 },
             { vcn := 70, lcn := 500, size := 20 }] := by
  constructor
  · intro sv records i h
    simp only [decodeExtents, List.getElem?_map, List.getElem?_range, h, if_pos,
      Option.map_some]
    simp [decodeExtent]
  · rfl

/-- When issueRead returns a buffer, the buffer has exactly the allocated
length: the device content is written over the front of the preallocated
buffer, and the short-read check has already ensured the byte count matched
`expected_length`. -/
lemma issueRead_ok_length (s : NTFS) (ops0 : List DevOp) (data : List Nat)
    (e : Int) (d : List Nat) (s2 : NTFS) (ops : List DevOp)
    (hdata : data.length = e.toNat)
    (h : issueRead s ops0 data e = (.ok d, s2, ops)) :
    d.length = e.toNat := by
  simp only [issueRead, deviceRead] at h
  rw [if_neg (by simp : ¬((true : Bool) = false))] at h
  split_ifs at h with hmin
  · simp at h
  · rw [not_ne_iff] at hmin
    simp only [Prod.mk.injEq, Except.ok.injEq] at h
    obtain ⟨hfill, -⟩ := h
    subst hfill
    simp only [List.length_append, List.length_take, List.length_drop, hdata]
    omega

/-- When the device has fewer bytes available at its cursor than the read
requests, issueRead fails with the short-read error. -/
lemma issueRead_short (s : NTFS) (ops0 : List DevOp) (data : List Nat) (e : Int)
    (h : availAt s.device s.device.cursor < e) :
    (issueRead s ops0 data e).1 = .error .shortRead := by
  simp only [issueRead, deviceRead, availAt] at *
  rw [if_neg (by simp : ¬((true : Bool) = false))]
  split_ifs with hmin
  · rfl
  · rw [not_ne_iff] at hmin
    exfalso
    omega

/-- Claim C1: for a request within the volume bounds on a volume satisfying
the geometry invariant, read_clusters never returns a buffer of any length
other than `clusterCount * clusterSize` bytes — part one says any returned
buffer has exactly that length — and when the device delivers fewer bytes
than requested at the position the read actually uses, the call fails with
the short-read error rather than returning a short buffer (part two; its
second hypothesis rules out the seek-to-offset-zero path, on which the
source instead misreads SetFilePointer's zero return as a seek failure). -/
theorem read_clusters_exact_or_short (s : NTFS) (cluster clusters : Int)
    (hg : geometryInvariant s) (h1 : 0 < clusters) (h2 : 0 ≤ cluster)
    (h3 : cluster + clusters ≤ s.cluster_count) :
    (∀ d s2 ops, read_clusters s cluster clusters = (.ok d, s2, ops) →
      (d.length : Int) = s.cluster_size * clusters)
    ∧ (availAt s.device (readCursor s cluster) < s.cluster_size * clusters →
       (s.current_position = offsetBytes s cluster ∨ offsetBytes s cluster ≠ 0) →
       (read_clusters s cluster clusters).1 = .error .shortRead) := by
  obtain ⟨hss, hspc, hcs, hsb, hcseq, hcc, hsc⟩ := hg
  have hexppos : 0 < s.cluster_size * clusters := mul_pos hcs h1
  constructor
  · intro d s2 ops h
    simp only [read_clusters] at h
    split_ifs at h with hneg hcl hrange hsec hsrange hbuf hpos hz
    any_goals simp at h
    · have hlen := issueRead_ok_length _ _ _ _ d s2 ops (by simp) h
      rw [hlen, Int.toNat_of_nonneg hexppos.le]
    · have hlen := issueRead_ok_length _ _ _ _ d s2 ops (by simp) h
      rw [hlen, Int.toNat_of_nonneg hexppos.le]
  · intro hav hsk
    have hnegF : ¬ (s.cluster_size * clusters < 0) := not_lt.mpr hexppos.le
    have hclF : ¬ (clusters ≤ 0) := not_le.mpr h1
    have hrangeF : ¬ (cluster < 0 ∨ s.cluster_count < cluster + clusters) :=
      not_or.mpr ⟨not_lt.mpr h2, not_lt.mpr h3⟩
    have hsecs := sectorChecksOfClusterChecks s
      ⟨hss, hspc, hcs, hsb, hcseq, hcc, hsc⟩ cluster clusters h1 h2 h3
    have hsecF : ¬ (clusters * s.sectors_per_cluster ≤ 0) := not_le.mpr hsecs.1
    have hsrangeF : ¬ (cluster * s.sectors_per_cluster < 0 ∨
        s.sector_count <
          cluster * s.sectors_per_cluster + clusters * s.sectors_per_cluster) :=
      not_or.mpr ⟨not_lt.mpr hsecs.2.1, not_lt.mpr hsecs.2.2⟩
    have hbufF : ¬ ((((List.replicate (s.cluster_size * clusters).toNat
        (0 : Nat)).length : Int)) <
        clusters * s.sectors_per_cluster * s.sector_size) := by
      rw [List.length_replicate, Int.toNat_of_nonneg hexppos.le, hcseq]
      exact not_lt.mpr (le_of_eq (by ring))
    simp only [read_clusters]
    rw [if_neg hnegF, if_neg hclF, if_neg hrangeF, if_neg hsecF, if_neg hsrangeF,
      if_neg hbufF]
    by_cases hcp : s.current_position = cluster * s.sectors_per_cluster * s.sector_size
    · rw [if_neg (not_not_intro hcp)]
      apply issueRead_short
      simp only [readCursor, offsetBytes] at hav
      rw [if_pos hcp] at hav
      simpa [availAt] using hav
    · rw [if_pos hcp]
      have hzF : ¬ ((setFilePointer s.device
          (cluster * s.sectors_per_cluster * s.sector_size)).1 = 0) := by
        simp only [setFilePointer]
        rcases hsk with hsk | hsk
        · exact absurd (by simpa [offsetBytes] using hsk) hcp
        · simpa [offsetBytes] using hsk
      rw [if_neg hzF]
      apply issueRead_short
      simp only [readCursor, offsetBytes] at hav
      rw [if_neg hcp] at hav
      simpa [setFilePointer, availAt] using hav

/-- Witness for C1: on the truncated-device test volume, a four-cluster read
at cluster 0 is within bounds but the device can deliver only two bytes, and
read_clusters fails with the short-read error. -/
theorem read_clusters_exact_or_short_spot :
    (read_clusters truncatedDisk 0 4).1 = .error .shortRead :=
  (read_clusters_exact_or_short truncatedDisk 0 4 (by decide) (by decide)
    (by decide) (by decide)).2 (by decide) (Or.inl (by decide))
